import Mathlib

/-!
Verification development for the SmorthomeScriptRepo device-driver adapters.

The definitions below are a shallow embedding of the TypeScript drivers:

* `src/esp-pwm-driver/index.ts`  (the esp-pwm MQTT driver)
* `src/unnamed/part_000`         (the zigbee2mqtt driver)
* `src/unnamed/part_001`         (the generic esp driver with pins, neopixels)
* `src/unnamed/part_002`         (the shutter driver)
* `src/unnamed/part_004`         (the FritzBox HTTP driver)

JavaScript numbers are modelled as rationals (no value in the verified paths
depends on binary floating point, and NaN is modelled explicitly where the
control flow depends on it), JS maps as association lists, and the
`parentPort.postMessage` side effects as explicit lists of `Intent` values
returned by each handler.  JSON-serialised wire payloads are kept structural
(a `Payload` datatype) since no verified property depends on the byte-level
encoding.
-/

/-- A JavaScript runtime value as it occurs in feature caches and state-update
batches: booleans, finite numbers (as rationals) and strings. -/
inductive JSValue where
  | bool (b : Bool)
  | num (q : ℚ)
  | str (s : String)
deriving DecidableEq, Repr

/-- JavaScript truthiness of a `JSValue`. -/
def JSValue.truthy : JSValue → Bool
  | .bool b => b
  | .num q => decide (q ≠ 0)
  | .str s => decide (s ≠ "")

/-- The `Feature` interface shared by every driver (`_id`, `name`, `category`,
`verifyvalue`, `types`, optional `unit`/`icon`).  String fields default to
`""`, matching the drivers' use of the empty string as the absent id. -/
structure Feature where
  _id : String := ""
  name : String := ""
  category : String := ""
  verifyvalue : String := ""
  types : List String := []
  unit : String := ""
  icon : String := ""
deriving DecidableEq, Repr

/-- The configuration bag fields that the embedded handlers read
(`DeviceConfiguration` is an open record in the source; unused keys are
omitted).  `fadeChannels` models the dynamic `fade_channel_<n>` properties. -/
structure Conf where
  type : Option String := none
  friendly_name : String := ""
  transition : Option ℚ := none
  state_skip_transition : Bool := false
  fadetime : Option ℚ := none
  fadeChannels : List (String × ℚ) := []
deriving DecidableEq, Repr

/-- The `DeviceDocument` fields consulted by the embedded handlers. -/
structure Device where
  _id : String := ""
  features : List Feature := []
  conf : Conf := {}
deriving DecidableEq, Repr

/-- A structural stand-in for the JSON payloads published to the transport. -/
inductive Payload where
  | pwm (value : ℚ) (fade : ℚ)
  | state (isOn : Bool) (transition : Option ℚ)
  | brightness (value : JSValue) (transition : ℚ)
  | neoBrightness (value : JSValue)
  | colorTemp (value : Option ℚ) (transition : ℚ)
  | rgb (r g b : Option ℕ) (fade : Option ℚ)
  | text (s : String)
deriving DecidableEq, Repr

/-- An outbound intent posted to the host via `parentPort.postMessage`. -/
inductive Intent where
  | setData (storeInDB : Bool) (status : Option String)
      (feature : List (String × JSValue))
  | editDevice (confUpdate : Bool) (features : Option (List Feature))
      (preventRestart : Bool)
  | publishMessage (topic : String) (payload : Payload)
  | restartDeviceDriver
deriving DecidableEq, Repr

/-- `Array.prototype.find`: the first element satisfying the predicate. -/
def findFirst {α : Type} (p : α → Bool) : List α → Option α
  | [] => none
  | a :: rest => if p a then some a else findFirst p rest

/-- `Map.prototype.get` on an association-list model of a JS `Map`. -/
def mapGet (m : List (String × JSValue)) (k : String) : Option JSValue :=
  (findFirst (fun e => e.1 == k) m).map (fun e => e.2)

/-- `Map.prototype.set` on an association-list model of a JS `Map`. -/
def mapSet (m : List (String × JSValue)) (k : String) (v : JSValue) :
    List (String × JSValue) :=
  match m with
  | [] => [(k, v)]
  | e :: rest => if e.1 == k then (k, v) :: rest else e :: mapSet rest k v

/-- Truthiness of an optional string id (`undefined` and `""` are falsy). -/
def strTruthy (o : Option String) : Bool :=
  match o with
  | none => false
  | some s => decide (s ≠ "")

/-- Digit value of a decimal digit character. -/
def digitVal (c : Char) : Option ℕ :=
  if c.isDigit then some (c.toNat - 48) else none

/-- Splits a character list into its leading decimal digits and the rest. -/
def takeDigits : List Char → List ℕ × List Char
  | [] => ([], [])
  | c :: rest =>
    match digitVal c with
    | some d =>
      let r := takeDigits rest
      (d :: r.1, r.2)
    | none => ([], c :: rest)

/-- Reassembles a most-significant-first digit list into a natural number. -/
def natOfDigits (ds : List ℕ) : ℕ :=
  ds.foldl (fun a d => a * 10 + d) 0

/-- Parses a leading signed decimal numeral (integer part, optional fraction)
returning the value and the unconsumed suffix; `none` when no digit occurs.
This models the prefix-parsing behaviour of `parseFloat` (exponents do not
occur in the verified inputs). -/
def parseNumCore (cs : List Char) : Option (ℚ × List Char) :=
  let signSplit : Bool × List Char :=
    match cs with
    | '-' :: r => (true, r)
    | '+' :: r => (false, r)
    | _ => (false, cs)
  let neg := signSplit.1
  let intPart := takeDigits signSplit.2
  let fracPart : List ℕ × List Char :=
    match intPart.2 with
    | '.' :: r => takeDigits r
    | _ => ([], intPart.2)
  let rest : List Char :=
    match intPart.2 with
    | '.' :: _ => fracPart.2
    | _ => intPart.2
  if intPart.1.isEmpty && fracPart.1.isEmpty then none
  else
    let v : ℚ := (natOfDigits intPart.1 : ℚ) +
      (natOfDigits fracPart.1 : ℚ) / ((10 : ℚ) ^ fracPart.1.length)
    some (if neg then -v else v, rest)

/-- JS `parseFloat`: prefix parse after skipping leading spaces; `none` is NaN. -/
def jsParseFloat (s : String) : Option ℚ :=
  (parseNumCore (s.data.dropWhile (fun c => c == ' '))).map (fun r => r.1)

/-- JS `parseInt` (radix 10) on a string: sign and leading digits only. -/
def jsParseIntStr (s : String) : Option ℤ :=
  let cs := s.data.dropWhile (fun c => c == ' ')
  let signSplit : Bool × List Char :=
    match cs with
    | '-' :: r => (true, r)
    | '+' :: r => (false, r)
    | _ => (false, cs)
  let ds := (takeDigits signSplit.2).1
  if ds.isEmpty then none
  else
    let n : ℤ := (natOfDigits ds : ℤ)
    some (if signSplit.1 then -n else n)

/-- Truncation toward zero, as JS `parseInt(String(q))` behaves on plain
decimal numerals. -/
def jsTruncQ (q : ℚ) : ℤ :=
  if 0 ≤ q then ⌊q⌋ else -⌊-q⌋

/-- JS `parseInt` applied to a runtime value (`parseInt` stringifies its
argument; booleans stringify to `"true"`/`"false"` which parse to NaN). -/
def jsParseInt (v : JSValue) : Option ℤ :=
  match v with
  | .str s => jsParseIntStr s
  | .num q => some (jsTruncQ q)
  | .bool _ => none

/-- JS `ToNumber` on a full string (used by loose comparison and arithmetic
coercion): the empty/blank string is `0`, otherwise the whole string must be
a numeral. -/
def jsStrToNumber (s : String) : Option ℚ :=
  let cs := s.data.dropWhile (fun c => c == ' ')
  let cs := (cs.reverse.dropWhile (fun c => c == ' ')).reverse
  if cs.isEmpty then some 0
  else
    match parseNumCore cs with
    | some (q, []) => some q
    | _ => none

/-- JS `ToNumber` on a runtime value; `none` is NaN. -/
def jsToNumber (v : JSValue) : Option ℚ :=
  match v with
  | .num q => some q
  | .bool b => some (if b then 1 else 0)
  | .str s => jsStrToNumber s

-- --------------------------------------------------------------------------
-- Feature Directory (identical in index.ts, part_000 and part_001)
-- --------------------------------------------------------------------------

/-- `getFeatureByTypeOrNameOrId` from the drivers: one pass matching
`feature.types.includes(searchString) || feature._id == searchString`,
then, only if that fails, a pass matching `feature.name === searchString`. -/
def getFeatureByTypeOrNameOrId (features : List Feature) (searchString : String) :
    Option Feature :=
  match findFirst
      (fun f => f.types.contains searchString || f._id == searchString) features with
  | some f => some f
  | none => findFirst (fun f => f.name == searchString) features

/-- `featureExists` from the drivers. -/
def featureExists (featuresArray : List Feature) (featureName : String) : Bool :=
  featuresArray.any (fun f => f.types.contains featureName)

/-- Modelled from the spec: "resolve(query)" tries (a) type-tag membership,
(b) exact identifier equality, (c) exact display-name equality, in that
priority order, first match in list order.  Stated only for comparison with
`getFeatureByTypeOrNameOrId`. -/
def resolveSpec (features : List Feature) (q : String) : Option Feature :=
  match findFirst (fun f => f.types.contains q) features with
  | some f => some f
  | none =>
    match findFirst (fun f => f._id == q) features with
    | some f => some f
    | none => findFirst (fun f => f.name == q) features

/-- The merged first-tier predicate actually used by the drivers. -/
def matchTypeOrId (f : Feature) (q : String) : Bool :=
  f.types.contains q || f._id == q

theorem bool_not_true_eq_false : ∀ b : Bool, ¬ b = true → b = false := by decide

theorem findFirst_eq_some_split {α : Type} (p : α → Bool) (l : List α) (a : α) :
    findFirst p l = some a ↔
      p a = true ∧ ∃ l1 l2, l = l1 ++ a :: l2 ∧ ∀ x ∈ l1, p x = false := by
  induction l with
  | nil =>
    constructor
    · intro h; exact absurd h (by simp [findFirst])
    · rintro ⟨_, l1, l2, hsplit, _⟩
      exact absurd hsplit (by simp)
  | cons x xs ih =>
    constructor
    · intro h
      by_cases hx : p x = true
      · rw [findFirst, if_pos hx] at h
        injection h with h
        subst h
        exact ⟨hx, [], xs, rfl, by simp⟩
      · rw [findFirst, if_neg hx] at h
        rcases ih.mp h with ⟨hpa, l1, l2, hsplit, hall⟩
        refine ⟨hpa, x :: l1, l2, by rw [hsplit]; rfl, ?_⟩
        intro z hz
        rcases List.mem_cons.mp hz with h2 | h2
        · subst h2; exact bool_not_true_eq_false _ hx
        · exact hall z h2
    · rintro ⟨hpa, l1, l2, hsplit, hall⟩
      cases l1 with
      | nil =>
        simp only [List.nil_append] at hsplit
        injection hsplit with h1 h2
        subst h1; subst h2
        rw [findFirst, if_pos hpa]
      | cons y ys =>
        rw [List.cons_append] at hsplit
        injection hsplit with h1 h2
        subst h1
        have hy : p x = false := hall x (by simp)
        rw [findFirst, if_neg (by simp [hy])]
        exact ih.mpr ⟨hpa, ys, l2, h2, fun z hz => hall z (by simp [hz])⟩

theorem findFirst_eq_none_iff {α : Type} (p : α → Bool) (l : List α) :
    findFirst p l = none ↔ ∀ x ∈ l, p x = false := by
  induction l with
  | nil => simp [findFirst]
  | cons x xs ih =>
    constructor
    · intro h
      by_cases hx : p x = true
      · rw [findFirst, if_pos hx] at h; exact absurd h (by simp)
      · rw [findFirst, if_neg hx] at h
        intro z hz
        rcases List.mem_cons.mp hz with h2 | h2
        · subst h2; exact bool_not_true_eq_false _ hx
        · exact ih.mp h z h2
    · intro h
      have hx : p x = false := h x (by simp)
      rw [findFirst, if_neg (by simp [hx])]
      exact ih.mpr (fun z hz => h z (by simp [hz]))

/-- `C3` counterexample data: the first feature matches only by identifier,
the second (later) feature matches by type tag. -/
def c3f1 : Feature := { _id := "x", name := "a", category := "sensor" }

/-- Second `C3` counterexample feature, matching the query by type tag. -/
def c3f2 : Feature := { _id := "y", name := "b", category := "sensor", types := ["x"] }

/-- C3: the code resolves the query `"x"` to the earlier feature that matches
only by identifier, while the claimed type-tag-first priority order would
resolve it to the later feature that matches by type tag. -/
theorem c3_counterexample :
    getFeatureByTypeOrNameOrId [c3f1, c3f2] "x" = some c3f1 ∧
      resolveSpec [c3f1, c3f2] "x" = some c3f2 ∧ c3f1 ≠ c3f2 := by
  refine ⟨?_, ?_, by decide⟩ <;> rfl

/-- C3 (amended): `getFeatureByTypeOrNameOrId` tries type-tag membership and
exact identifier equality together in a single first pass (one priority
tier), and only if no feature matches either does it try exact display-name
equality; within each tier the first feature in list order wins. -/
theorem c3_amended (features : List Feature) (q : String) (f : Feature) :
    getFeatureByTypeOrNameOrId features q = some f ↔
      ((∃ l1 l2, features = l1 ++ f :: l2 ∧ matchTypeOrId f q = true ∧
          ∀ g ∈ l1, matchTypeOrId g q = false) ∨
        ((∀ g ∈ features, matchTypeOrId g q = false) ∧
          ∃ l1 l2, features = l1 ++ f :: l2 ∧ f.name = q ∧
            ∀ g ∈ l1, g.name ≠ q)) := by
  have hpred : (fun g : Feature => g.types.contains q || g._id == q) =
      (fun g => matchTypeOrId g q) := by
    funext g; rfl
  unfold getFeatureByTypeOrNameOrId
  rw [hpred]
  cases hfind : findFirst (fun g => matchTypeOrId g q) features with
  | some g =>
    rcases (findFirst_eq_some_split _ _ _).mp hfind with ⟨hpg, l1, l2, hsplit, hall⟩
    constructor
    · intro h
      injection h with h
      subst h
      exact Or.inl ⟨l1, l2, hsplit, hpg, hall⟩
    · rintro (⟨m1, m2, hsp, hpf, hallf⟩ | ⟨hnone, _⟩)
      · have h1 : findFirst (fun g => matchTypeOrId g q) features = some f := by
          rw [findFirst_eq_some_split]
          exact ⟨hpf, m1, m2, hsp, hallf⟩
        rw [hfind] at h1
        injection h1 with h1
        rw [h1]
      · exact absurd (hnone g (hsplit ▸ by simp)) (by simp [hpg])
  | none =>
    have hnone := (findFirst_eq_none_iff _ _).mp hfind
    constructor
    · intro h
      rcases (findFirst_eq_some_split _ _ _).mp h with ⟨hpf, l1, l2, hsplit, hall⟩
      refine Or.inr ⟨hnone, l1, l2, hsplit, by simpa using hpf, ?_⟩
      intro g hg hgq
      exact absurd (hall g hg) (by simp [hgq])
    · rintro (⟨m1, m2, hsp, hpf, _⟩ | ⟨_, m1, m2, hsp, hname, hallf⟩)
      · exact absurd (hnone f (hsp ▸ by simp)) (by simp [hpf])
      · rw [findFirst_eq_some_split]
        refine ⟨by simpa using hname, m1, m2, hsp, ?_⟩
        intro g hg
        have := hallf g hg
        simpa using this

-- --------------------------------------------------------------------------
-- Generic esp driver (part_001): inbound temperature path
-- --------------------------------------------------------------------------

/-- Worker-global mutable state of the generic esp driver (part_001): the
`device` record (mutated in place by `device.features.push`), the
`featureValue` cache and the `addFeatureProcess` list. -/
structure EspState where
  device : Device
  featureValue : List (String × JSValue) := []
  addFeatureProcess : List String := []
deriving DecidableEq, Repr

/-- The temperature significance threshold of part_001 (`tempDelta > 0.1`). -/
def tempStoreThreshold : ℚ := 1 / 10

/-- The `storeInDB` flag computed by part_001's temperature branch:
`tempDelta > 0.1` with
`tempDelta = oldTempValue !== undefined ? Math.abs(oldTempValue - temp) : Infinity`.
An absent cache entry gives `Infinity`, hence `true`; a cached value that does
not coerce to a number makes the subtraction NaN and the comparison `false`. -/
def storeWorthy (oldVal : Option JSValue) (temp : ℚ) : Bool :=
  match oldVal with
  | none => true
  | some v =>
    match jsToNumber v with
    | none => false
    | some o => decide (|o - temp| > tempStoreThreshold)

/-- The Temperature feature object pushed by part_001 when the feature is
missing (the host assigns `_id`, modelled as `""`). -/
def newTemperatureFeature : Feature :=
  { name := "Temperature", category := "sensor",
    verifyvalue := "^-?(30(.00?)?|100(.00?)?|([0-9]|[1-9][0-9])(.d\x7b2\x7d)?)$",
    unit := "Â°C", icon := "eva-thermometer", types := ["temperature"] }

/-- The `/device/<id>/temperature` branch of part_001's `handleMqttMessage`:
guards on a truthy payload that parses as a float, resolves the temperature
feature, runs the add-feature branch when the id is falsy, and otherwise
unconditionally caches the reading and emits one `setData` whose `storeInDB`
flag is the thresholded delta. -/
def handleTemperatureMessage (st : EspState) (raw : String) : EspState × List Intent :=
  if raw == "" then (st, [])
  else
    match jsParseFloat raw with
    | none => (st, [])
    | some temp =>
      let featureIdOpt : Option String :=
        (getFeatureByTypeOrNameOrId st.device.features "temperature").map
          (fun f => f._id)
      let addBranch : EspState × List Intent :=
        if !strTruthy featureIdOpt && !(st.addFeatureProcess.contains "temperature") then
          let newFeatures := st.device.features ++ [newTemperatureFeature]
          ({ st with
              device := { st.device with features := newFeatures },
              addFeatureProcess := st.addFeatureProcess ++ ["temperature"] },
            [Intent.editDevice false (some newFeatures) true,
              Intent.publishMessage ("/device/" ++ st.device._id ++ "/request")
                (Payload.text "restart"),
              Intent.restartDeviceDriver])
        else (st, [])
      match featureIdOpt with
      | none => addBranch
      | some fid =>
        if fid == "" then addBranch
        else
          let store := storeWorthy (mapGet st.featureValue fid) temp
          ({ st with featureValue := mapSet st.featureValue fid (JSValue.num temp) },
            [Intent.setData store none [(fid, JSValue.num temp)]])

/-- Applies the temperature handler to a sequence of raw payloads in order,
concatenating the emitted intents. -/
def processTempReadings (st : EspState) : List String → EspState × List Intent
  | [] => (st, [])
  | r :: rest =>
    let step := handleTemperatureMessage st r
    let more := processTempReadings step.1 rest
    (more.1, step.2 ++ more.2)

/-- Recognises a feature-value-update intent. -/
def isSetData : Intent → Bool
  | Intent.setData _ _ _ => true
  | _ => false

/-- The `storeInDB` flags of the `setData` intents emitted for a reading
sequence, in order. -/
def storeFlags (st : EspState) (raws : List String) : List Bool :=
  (processTempReadings st raws).2.filterMap
    (fun i =>
      match i with
      | Intent.setData b _ _ => some b
      | _ => none)

/-- Modelled from the claim's words (for comparison): store-worthiness deltas
computed against the last stored cached value, which non-stored readings
leave unchanged. -/
def storeFlagsSpec (lastStored : Option ℚ) : List ℚ → List Bool
  | [] => []
  | t :: ts =>
    let flag :=
      match lastStored with
      | none => true
      | some o => decide (|o - t| > tempStoreThreshold)
    flag :: storeFlagsSpec (if flag then some t else lastStored) ts

/-- A registered device with one temperature feature, as rebuilt after init. -/
def tempTestFeature : Feature :=
  { _id := "t1", name := "Temperature", category := "sensor",
    types := ["temperature"] }

/-- Test device owning only the temperature feature. -/
def tempTestDevice : Device := { _id := "dev1", features := [tempTestFeature] }

/-- Fresh worker state for the temperature test device (empty cache). -/
def tempTestState : EspState := { device := tempTestDevice }

theorem mapGet_mapSet_self (m : List (String × JSValue)) (k : String) (v : JSValue) :
    mapGet (mapSet m k v) k = some v := by
  induction m with
  | nil => simp [mapGet, mapSet, findFirst]
  | cons e rest ih =>
    by_cases he : (e.1 == k) = true
    · simp [mapGet, mapSet, findFirst, he]
    · have he' : (e.1 == k) = false := bool_not_true_eq_false _ he
      simp only [mapSet, he', Bool.false_eq_true, if_false]
      simpa [mapGet, findFirst, he'] using ih

/-- C1: feeding the same temperature value twice emits a feature-value-update
intent both times (two in total, one per feeding), even though the second
incoming value is strictly equal to the Value Cache entry — refuting the
claim that a `setData` intent is emitted only when the value differs from the
cache or the cache entry is absent. -/
theorem c1_counterexample :
    ((handleTemperatureMessage tempTestState "20").2 ++
        (handleTemperatureMessage (handleTemperatureMessage tempTestState "20").1
          "20").2).countP isSetData = 2 ∧
      mapGet (handleTemperatureMessage tempTestState "20").1.featureValue "t1" =
        some (JSValue.num 20) := by
  constructor <;> with_unfolding_all decide

/-- C1 (amended): the inbound temperature path emits exactly one
feature-value-update intent for every truthy payload that parses as a number
and resolves to a feature with a truthy id — even when the incoming value is
strictly equal to the Value Cache entry.  The cache comparison governs only
the `storeInDB` flag: an absent cache entry counts as store-worthy and an
exact repeat as not store-worthy. -/
theorem c1_amended (st : EspState) (raw : String) (temp : ℚ) (f : Feature)
    (h0 : (raw == "") = false) (h1 : jsParseFloat raw = some temp)
    (h2 : getFeatureByTypeOrNameOrId st.device.features "temperature" = some f)
    (h3 : (f._id == "") = false) :
    (handleTemperatureMessage st raw).2 =
      [Intent.setData (storeWorthy (mapGet st.featureValue f._id) temp) none
        [(f._id, JSValue.num temp)]] ∧
      storeWorthy none temp = true ∧
      storeWorthy (some (JSValue.num temp)) temp = false := by
  refine ⟨?_, rfl, ?_⟩
  · simp only [handleTemperatureMessage, h0, Bool.false_eq_true, if_false, h1,
      h2, Option.map_some', h3]
  · simp only [storeWorthy, jsToNumber, sub_self, abs_zero, tempStoreThreshold,
      decide_eq_false_iff_not, not_lt]
    norm_num

/-- Closed instance of `c1_amended` at a concrete device and reading. -/
theorem c1_amended_witness :
    (handleTemperatureMessage tempTestState "20").2 =
      [Intent.setData
        (storeWorthy (mapGet tempTestState.featureValue tempTestFeature._id) 20)
        none [(tempTestFeature._id, JSValue.num 20)]] ∧
      storeWorthy none 20 = true ∧
      storeWorthy (some (JSValue.num 20)) 20 = false :=
  c1_amended tempTestState "20" 20 tempTestFeature (by with_unfolding_all decide)
    (by with_unfolding_all decide) (by with_unfolding_all decide)
    (by with_unfolding_all decide)

/-- C2: a sequence whose third reading is within the 0.1 threshold of the
immediately preceding (unstored) raw reading but beyond it from the last
stored value: the code flags it not store-worthy, while the claimed
last-stored-delta policy flags it store-worthy. -/
theorem c2_counterexample :
    storeFlags tempTestState ["20", "20.05", "20.14"] = [true, false, false] ∧
      storeFlagsSpec none [20, 401 / 20, 1007 / 50] = [true, false, true] := by
  constructor <;> with_unfolding_all decide

/-- C2 (amended): for the spec's concrete sequence `[20.0, 20.05, 20.9]` the
flags do come out `[store, not, store]`, but the delta is computed against the
immediately preceding raw reading: the cache is overwritten with every
reading, stored or not. -/
theorem c2_amended (st : EspState) (raw : String) (temp : ℚ) (f : Feature)
    (h0 : (raw == "") = false) (h1 : jsParseFloat raw = some temp)
    (h2 : getFeatureByTypeOrNameOrId st.device.features "temperature" = some f)
    (h3 : (f._id == "") = false) :
    storeFlags tempTestState ["20", "20.05", "20.9"] = [true, false, true] ∧
      mapGet (handleTemperatureMessage st raw).1.featureValue f._id =
        some (JSValue.num temp) := by
  constructor
  · with_unfolding_all decide
  · simp only [handleTemperatureMessage, h0, Bool.false_eq_true, if_false, h1,
      h2, Option.map_some', h3]
    exact mapGet_mapSet_self st.featureValue f._id (JSValue.num temp)

/-- Closed instance of `c2_amended` at a concrete device and reading. -/
theorem c2_amended_witness :
    storeFlags tempTestState ["20", "20.05", "20.9"] = [true, false, true] ∧
      mapGet (handleTemperatureMessage tempTestState "20.05").1.featureValue
        tempTestFeature._id = some (JSValue.num (401 / 20)) :=
  c2_amended tempTestState "20.05" (401 / 20) tempTestFeature
    (by with_unfolding_all decide) (by with_unfolding_all decide)
    (by with_unfolding_all decide) (by with_unfolding_all decide)

-- --------------------------------------------------------------------------
-- esp-pwm driver (index.ts): pairing confirmation and outbound redis path
-- --------------------------------------------------------------------------

/-- The standard feature set the esp-pwm driver asks the host to add when the
`pwm` capability is missing on a `registered` confirmation. -/
def espPwmStandardFeatures : List Feature :=
  [{ name := "Channel 1", category := "action",
     verifyvalue := "^(?:25[0-5]|2[0-4][0-9]|[01]?[0-9][0-9]?)$",
     icon := "mdi-pulse", types := ["channel1", "8bit", "pwm"] },
   { name := "Channel 2", category := "action",
     verifyvalue := "^(?:25[0-5]|2[0-4][0-9]|[01]?[0-9][0-9]?)$",
     icon := "mdi-pulse", types := ["channel2", "8bit", "pwm"] },
   { name := "Channel 3", category := "action",
     verifyvalue := "^(?:25[0-5]|2[0-4][0-9]|[01]?[0-9][0-9]?)$",
     icon := "mdi-pulse", types := ["channel3", "8bit", "pwm"] }]

/-- `handleRegisteredDeviceMessage` of the esp-pwm driver: on a truthy payload
it posts exactly one `editDevice` carrying a conf update (narrowed topics,
`searching:false`, `fadetime:500`) and attaches the standard feature set only
when the `pwm` feature is missing (`anyFeatureMissing = !pwmExists`); the
`preventRestart` flag is not set and no other intent is emitted. -/
def handleRegisteredDeviceMessage (msgTruthy : Bool) (device : Device) :
    List Intent :=
  if msgTruthy then
    let pwmExists := featureExists device.features "pwm"
    let anyFeatureMissing := !pwmExists
    [Intent.editDevice true
      (if anyFeatureMissing then some espPwmStandardFeatures else none) false]
  else []

/-- C6: replaying a `registered` confirmation when the `pwm` feature set is
already complete posts a single conf-only `editDevice` — no feature list is
attached (so no duplicate features are requested) and no
`restartDeviceDriver` intent is emitted. -/
theorem c6_idempotent_repairing (device : Device)
    (h : featureExists device.features "pwm" = true) :
    handleRegisteredDeviceMessage true device =
        [Intent.editDevice true none false] ∧
      Intent.restartDeviceDriver ∉ handleRegisteredDeviceMessage true device := by
  have e : handleRegisteredDeviceMessage true device =
      [Intent.editDevice true none false] := by
    simp [handleRegisteredDeviceMessage, h]
  refine ⟨e, ?_⟩
  rw [e]
  simp

/-- A device whose standard `pwm` feature set is already complete. -/
def c6Device : Device :=
  { _id := "dev6",
    features := [{ _id := "f1", name := "Channel 1", category := "action",
                   types := ["channel1", "8bit", "pwm"] }] }

/-- Closed instance of `c6_idempotent_repairing` at a complete device. -/
theorem c6_idempotent_repairing_witness :
    handleRegisteredDeviceMessage true c6Device =
        [Intent.editDevice true none false] ∧
      Intent.restartDeviceDriver ∉ handleRegisteredDeviceMessage true c6Device :=
  c6_idempotent_repairing c6Device (by with_unfolding_all decide)

/-- The first `channel<digits>` match in a string (`/channel(\d+)/`): scans
left to right for `"channel"` immediately followed by at least one digit. -/
def channelScan : List Char → Option ℕ
  | [] => none
  | c :: rest =>
    if ("channel".data).isPrefixOf (c :: rest) then
      match (takeDigits (List.drop 7 (c :: rest))).1 with
      | [] => channelScan rest
      | d :: ds => some (natOfDigits (d :: ds))
    else channelScan rest

/-- `extractNumberFromArray`: the channel numbers matched in a type-tag list. -/
def extractNumberFromArray (array : List String) : List ℕ :=
  array.filterMap (fun s => channelScan s.data)

/-- The boolean-like test of the pwm branches:
`typeof value === "boolean" || value === "true" || value === "false"`. -/
def isBoolLike : JSValue → Bool
  | .bool _ => true
  | .str s => s == "true" || s == "false"
  | _ => false

/-- `value === true || value === "true" ? 255 : 0`. -/
def boolLikeLevel : JSValue → ℚ
  | .bool true => 255
  | .str "true" => 255
  | _ => 0

/-- `getPWMFadeTime`: the per-channel `fade_channel_<n>` conf override when
present, otherwise `conf.fadetime ?? 500`. -/
def getPWMFadeTime (conf : Conf) (channelNumber : String) : ℚ :=
  match findFirst (fun p => p.1 == channelNumber) conf.fadeChannels with
  | some p => p.2
  | none => conf.fadetime.getD 500

/-- One entry of the esp-pwm `handleRedisMessage` loop: resolve the feature,
take the first channel number (skipped when it is the falsy 0), encode
boolean-like values as 0/255 with fade 0, otherwise scale `parseInt(value)`
by 2.5 with the configured fade, `continue`-skipping the entry when the
parse is NaN. -/
def handleRedisEntry (device : Device) (entry : String × JSValue) : List Intent :=
  match getFeatureByTypeOrNameOrId device.features entry.1 with
  | none => []
  | some f =>
    match (extractNumberFromArray f.types).head? with
    | none => []
    | some pwmNumber =>
      if pwmNumber == 0 then []
      else if isBoolLike entry.2 then
        [Intent.publishMessage
          ("/device/" ++ device._id ++ "/pwm/" ++ toString pwmNumber)
          (Payload.pwm (boolLikeLevel entry.2) 0)]
      else
        match jsParseInt entry.2 with
        | none => []
        | some n =>
          [Intent.publishMessage
            ("/device/" ++ device._id ++ "/pwm/" ++ toString pwmNumber)
            (Payload.pwm ((5 / 2 : ℚ) * (n : ℚ))
              (getPWMFadeTime device.conf (toString pwmNumber)))]

/-- The esp-pwm `handleRedisMessage` loop over the `{feature: {id: value}}`
entries of a state-update batch; no state is threaded between entries and
`continue` only skips the current entry. -/
def handleRedisMessage (device : Device) : List (String × JSValue) → List Intent
  | [] => []
  | e :: rest => handleRedisEntry device e ++ handleRedisMessage device rest

/-- A device with the three standard pwm channel features. -/
def c7Device : Device :=
  { _id := "dev7",
    features :=
      [{ _id := "a", name := "Channel 1", category := "action",
         types := ["channel1", "8bit", "pwm"] },
       { _id := "b", name := "Channel 2", category := "action",
         types := ["channel2", "8bit", "pwm"] },
       { _id := "c", name := "Channel 3", category := "action",
         types := ["channel3", "8bit", "pwm"] }] }


-- --------------------------------------------------------------------------
-- esp-pwm driver (index.ts): liveness watchdog (offlineTimeoutStart)
-- --------------------------------------------------------------------------

/-- The state of one timer variable: `empty` (`undefined`, falsy), `pending`
(holding the handle of a scheduled timer, truthy), or `expired` (still
holding the handle of a timer that has already fired — a Node `Timeout`
object stays truthy after firing). -/
inductive Slot where
  | empty
  | pending
  | expired
deriving DecidableEq, Repr

/-- JS truthiness of a timer variable (any stored handle is truthy). -/
def Slot.truthy : Slot → Bool
  | .empty => false
  | _ => true

/-- The liveness state of the esp-pwm worker: the two timer variables
(`requestStatusTimeout` and `setOffineTimeout`, source names) plus, for each
slot, the count of live scheduled timers targeting it — tracked explicitly
so that double-scheduling (which would orphan a still-live timer) is
representable in the model. -/
structure TimerState where
  requestStatusTimeout : Slot
  setOffineTimeout : Slot
  probeScheduled : ℕ
  offlineScheduled : ℕ
deriving DecidableEq, Repr

/-- The worker state before any timer has been armed. -/
def initTimerState : TimerState :=
  { requestStatusTimeout := .empty, setOffineTimeout := .empty,
    probeScheduled := 0, offlineScheduled := 0 }

/-- `offlineTimeoutStart(clear)`: when `clear`, `clearTimeout` both handles
(cancelling a pending timer) and reset both variables to `undefined`; then
`setTimeout` a fresh timer into each slot whose variable is falsy. -/
def offlineTimeoutStart (clear : Bool) (s : TimerState) : TimerState :=
  let s1 : TimerState :=
    if clear then
      { requestStatusTimeout := .empty, setOffineTimeout := .empty,
        probeScheduled :=
          if s.requestStatusTimeout = .pending then s.probeScheduled - 1
          else s.probeScheduled,
        offlineScheduled :=
          if s.setOffineTimeout = .pending then s.offlineScheduled - 1
          else s.offlineScheduled }
    else s
  let s2 : TimerState :=
    if s1.requestStatusTimeout.truthy then s1
    else { s1 with requestStatusTimeout := .pending,
                   probeScheduled := s1.probeScheduled + 1 }
  if s2.setOffineTimeout.truthy then s2
  else { s2 with setOffineTimeout := .pending,
                 offlineScheduled := s2.offlineScheduled + 1 }

/-- The kinds of registered-phase inbound messages in the esp-pwm handler. -/
inductive MsgKind where
  | mqtt
  | redis
deriving DecidableEq, Repr

/-- The timer-state effect of one registered-phase inbound message: an mqtt
message runs `offlineTimeoutStart()` (clearing) and then falls through to
the common `offlineTimeoutStart(false)`; a redis message runs only the
common `offlineTimeoutStart(false)`. -/
def processMessage (s : TimerState) (m : MsgKind) : TimerState :=
  match m with
  | .mqtt => offlineTimeoutStart false (offlineTimeoutStart true s)
  | .redis => offlineTimeoutStart false s

/-- The probe timer fires: its live count drops while the variable keeps the
now stale (still truthy) handle; the callback publishes the status request
and re-runs `offlineTimeoutStart(false)`. -/
def fireRequestStatus (deviceId : String) (s : TimerState) :
    TimerState × List Intent :=
  let s1 : TimerState :=
    { s with requestStatusTimeout := .expired,
             probeScheduled := s.probeScheduled - 1 }
  (offlineTimeoutStart false s1,
    [Intent.publishMessage ("/device/" ++ deviceId ++ "/request")
      (Payload.text "status")])

/-- The offline timer fires: emits the offline `setData` and re-runs
`offlineTimeoutStart(false)`, analogously keeping its stale handle. -/
def fireSetOffine (s : TimerState) : TimerState × List Intent :=
  let s1 : TimerState :=
    { s with setOffineTimeout := .expired,
             offlineScheduled := s.offlineScheduled - 1 }
  (offlineTimeoutStart false s1,
    [Intent.setData false (some "offline") []])

/-- Both timer variables hold a pending handle and each slot has exactly one
scheduled timer. -/
def TimerState.armedOnce (s : TimerState) : Bool :=
  decide (s.requestStatusTimeout = .pending) &&
    decide (s.setOffineTimeout = .pending) &&
    decide (s.probeScheduled = 1) && decide (s.offlineScheduled = 1)

/-- The unique armed-once state. -/
def armedState : TimerState :=
  { requestStatusTimeout := .pending, setOffineTimeout := .pending,
    probeScheduled := 1, offlineScheduled := 1 }

theorem armedOnce_eq (s : TimerState) (h : s.armedOnce = true) :
    s = armedState := by
  cases s with
  | mk rs so p o =>
    simp only [TimerState.armedOnce, Bool.and_eq_true, decide_eq_true_eq] at h
    obtain ⟨⟨⟨h1, h2⟩, h3⟩, h4⟩ := h
    simp [armedState, h1, h2, h3, h4]

theorem c5_aux (ms : List MsgKind) (s : TimerState) (h : s.armedOnce = true) :
    ((ms.foldl processMessage s).armedOnce) = true := by
  induction ms generalizing s with
  | nil => simpa using h
  | cons m rest ih =>
    have hs := armedOnce_eq s h
    subst hs
    rw [List.foldl_cons]
    apply ih
    cases m <;> with_unfolding_all decide

/-- C5: starting from the unarmed initial state, processing any nonempty
sequence of registered-phase inbound messages — each mqtt message performing
the clearing rearm followed by the do-not-clear rearm, each redis message
only the do-not-clear rearm — always ends with both the probe and the
offline slot holding exactly one scheduled timer: neither timer is left
unset and neither slot holds a duplicate. -/
theorem c5_liveness_invariant (msgs : List MsgKind) (h : msgs ≠ []) :
    ((msgs.foldl processMessage initTimerState).armedOnce) = true := by
  cases msgs with
  | nil => exact absurd rfl h
  | cons m rest =>
    have h1 : (processMessage initTimerState m).armedOnce = true := by
      cases m <;> with_unfolding_all decide
    rw [List.foldl_cons]
    exact c5_aux rest (processMessage initTimerState m) h1

/-- Closed instance of `c5_liveness_invariant` on a clearing rearm followed
by a do-not-clear rearm in the same turn. -/
theorem c5_liveness_invariant_witness :
    ([MsgKind.mqtt, MsgKind.redis] : List MsgKind) ≠ [] ∧
      (([MsgKind.mqtt, MsgKind.redis].foldl processMessage
          initTimerState).armedOnce) = true :=
  ⟨by decide, c5_liveness_invariant [MsgKind.mqtt, MsgKind.redis] (by decide)⟩

/-- The armed state reached after the first registered-phase mqtt message. -/
def armedInit : TimerState := processMessage initTimerState MsgKind.mqtt

/-- C4: after the probe timer fires, its callback's `offlineTimeoutStart(false)`
does not reschedule it — the variable still holds the fired timer's (truthy)
handle, so the `!requestStatusTimeout` guard fails and no probe timer remains
scheduled; even a subsequent redis message (do-not-clear rearm) leaves the
probe unscheduled.  The offline timer is defeated the same way. -/
theorem c4_code_bug :
    (fireRequestStatus "d" armedInit).1.probeScheduled = 0 ∧
      (fireRequestStatus "d" armedInit).1.requestStatusTimeout = Slot.expired ∧
      (processMessage (fireRequestStatus "d" armedInit).1
          MsgKind.redis).probeScheduled = 0 ∧
      (fireSetOffine armedInit).1.offlineScheduled = 0 := by
  with_unfolding_all decide

-- --------------------------------------------------------------------------
-- Generic esp driver (part_001): outbound redis path with colors
-- --------------------------------------------------------------------------

/-- Hex digit value (both cases), `none` for a non-hex character. -/
def hexDigitVal (c : Char) : Option ℕ :=
  if c.isDigit then some (c.toNat - 48)
  else if 'a' ≤ c && c ≤ 'f' then some (c.toNat - 87)
  else if 'A' ≤ c && c ≤ 'F' then some (c.toNat - 55)
  else none

/-- `parseInt(slice, 16)` on a two-character slice: prefix parse of hex
digits, NaN (`none`) when the first character is not a hex digit. -/
def parseHexPair (cs : List Char) : Option ℕ :=
  match cs with
  | [] => none
  | c :: rest =>
    match hexDigitVal c with
    | none => none
    | some d =>
      match rest with
      | [] => some d
      | c2 :: _ =>
        match hexDigitVal c2 with
        | none => some d
        | some d2 => some (16 * d + d2)

/-- `hex.replace(/^#?/, "")`: removes one optional leading `#`. -/
def stripHash (s : String) : String :=
  if s.startsWith "#" then s.drop 1 else s

/-- `hex.replace(/(.)/g, "$1$1")`: doubles every character. -/
def dupChars : List Char → List Char
  | [] => []
  | c :: rest => c :: c :: dupChars rest

/-- `hexToRgb` from part_001: strips one optional leading `#`, expands
3-character shorthand by doubling each character, throws
`"Invalid hex color string"` on any other non-6 length, and slices three hex
byte pairs (a non-hex pair yields NaN, modelled as `none`). -/
def hexToRgb (hex : String) : Except String (Option ℕ × Option ℕ × Option ℕ) :=
  let h0 := stripHash hex
  let h := if h0.length == 3 then String.mk (dupChars h0.data) else h0
  if h.length == 6 then
    Except.ok (parseHexPair (h.data.take 2),
      parseHexPair ((h.data.drop 2).take 2),
      parseHexPair ((h.data.drop 4).take 2))
  else Except.error "Invalid hex color string"

/-- One entry of part_001's `handleRedisMessage` loop: non-action features
are skipped; `pwm` features publish a command keyed by the `pin:<n>` tag
(boolean-likes to 0/255 with fade 0, otherwise `2.5 * parseInt(value)` with
the configured fade, a NaN parse `continue`-skipping the entry); `color`
features carrying a neopixel tag publish the parsed color per pixel or as a
global rgb with fade 1000 — `hexToRgb` throws on malformed color strings and
no `try` surrounds this handler, so the error propagates (`Except.error`);
`neopixel_brightness` features publish the raw value. -/
def handleRedisEntryP1 (device : Device) (entry : String × JSValue) :
    Except String (List Intent) :=
  match getFeatureByTypeOrNameOrId device.features entry.1 with
  | none => .ok []
  | some f =>
    if f.category ≠ "action" then .ok []
    else if f.types.contains "pwm" then
      match (findFirst (fun t => t.startsWith "pin:") f.types).map
          (fun t => t.drop 4) with
      | some pin =>
        if pin ≠ "" then
          if isBoolLike entry.2 then
            .ok [Intent.publishMessage ("/device/" ++ device._id ++ "/pwm/" ++ pin)
                  (Payload.pwm (boolLikeLevel entry.2) 0)]
          else
            match jsParseInt entry.2 with
            | none => .ok []
            | some n =>
              .ok [Intent.publishMessage
                    ("/device/" ++ device._id ++ "/pwm/" ++ pin)
                    (Payload.pwm ((5 / 2 : ℚ) * (n : ℚ))
                      (getPWMFadeTime device.conf pin))]
        else .ok []
      | none => .ok []
    else if f.types.contains "color" &&
        f.types.any (fun t => t.startsWith "neopixel:" || t == "neopixel") then
      let pixelOpt := (findFirst (fun t => t.startsWith "neopixel:") f.types).map
        (fun t => t.drop 9)
      match entry.2 with
      | .str s =>
        match hexToRgb s with
        | .error e => .error e
        | .ok (r, g, b) =>
          match pixelOpt with
          | some pixel =>
            if pixel ≠ "" then
              .ok [Intent.publishMessage
                    ("/device/" ++ device._id ++ "/pixel/" ++ pixel)
                    (Payload.rgb r g b none)]
            else
              .ok [Intent.publishMessage ("/device/" ++ device._id ++ "/rgb")
                    (Payload.rgb r g b (some 1000))]
          | none =>
            .ok [Intent.publishMessage ("/device/" ++ device._id ++ "/rgb")
                  (Payload.rgb r g b (some 1000))]
      | _ => .error "TypeError: hex.replace is not a function"
    else if f.types.contains "neopixel_brightness" then
      .ok [Intent.publishMessage ("/device/" ++ device._id ++ "/config/neopixel")
            (Payload.neoBrightness entry.2)]
    else .ok []

/-- Part_001's `handleRedisMessage` over a state-update batch: entries are
processed in order; an uncaught exception aborts the whole handler. -/
def handleRedisMessageP1 (device : Device) :
    List (String × JSValue) → Except String (List Intent)
  | [] => .ok []
  | e :: rest =>
    match handleRedisEntryP1 device e with
    | .error err => .error err
    | .ok cmds =>
      match handleRedisMessageP1 device rest with
      | .error err => .error err
      | .ok more => .ok (cmds ++ more)

instance {e a : Type} [DecidableEq e] [DecidableEq a] : DecidableEq (Except e a) :=
  fun x y =>
    match x, y with
    | .error u, .error v => decidable_of_iff (u = v) (by simp)
    | .ok u, .ok v => decidable_of_iff (u = v) (by simp)
    | .error _, .ok _ => isFalse (fun hc => Except.noConfusion hc)
    | .ok _, .error _ => isFalse (fun hc => Except.noConfusion hc)

/-- A device with a color feature addressed as a plain neopixel strip. -/
def c8Feature : Feature :=
  { _id := "c1", name := "Color", category := "action",
    types := ["color", "neopixel"] }

/-- Device owning only the color feature. -/
def c8Device : Device := { _id := "dev8", features := [c8Feature] }

/-- C8: a state update carrying the invalid color string `"abcd"` for a color
feature makes the state-update handler itself return the uncaught
`hexToRgb` exception — the failure propagates past the handler instead of
being dropped. -/
theorem c8_counterexample :
    handleRedisMessageP1 c8Device [("c1", JSValue.str "abcd")] =
      Except.error "Invalid hex color string" := by
  with_unfolding_all decide

theorem hexToRgb_error (s : String) (h3 : (stripHash s).length ≠ 3)
    (h6 : (stripHash s).length ≠ 6) :
    hexToRgb s = Except.error "Invalid hex color string" := by
  have e3 : ((stripHash s).length == 3) = false := by
    simpa using h3
  have e6 : ((stripHash s).length == 6) = false := by
    simpa using h6
  simp [hexToRgb, e3, e6]

/-- C8 (amended): the inbound/outbound handlers drop malformed numeric and
JSON payloads per message or per feature, but the outbound color path is an
exception: a color string whose length after stripping an optional leading
`#` is neither 3 nor 6 makes `hexToRgb` throw and the exception escapes the
state-update handler, aborting the whole batch. -/
theorem c8_amended (device : Device) (id s : String)
    (rest : List (String × JSValue)) (f : Feature)
    (h1 : getFeatureByTypeOrNameOrId device.features id = some f)
    (h2 : f.category = "action")
    (h3 : f.types.contains "pwm" = false)
    (h4 : (f.types.contains "color" &&
      f.types.any (fun t => t.startsWith "neopixel:" || t == "neopixel")) = true)
    (h5 : (stripHash s).length ≠ 3) (h6 : (stripHash s).length ≠ 6) :
    handleRedisMessageP1 device ((id, JSValue.str s) :: rest) =
      Except.error "Invalid hex color string" := by
  have hentry : handleRedisEntryP1 device (id, JSValue.str s) =
      Except.error "Invalid hex color string" := by
    unfold handleRedisEntryP1
    rw [h1]
    simp only [h2, h3, h4, hexToRgb_error s h5 h6]
    simp
  unfold handleRedisMessageP1
  rw [hentry]

/-- Closed instance of `c8_amended` at a length-2 color string. -/
theorem c8_amended_witness :
    handleRedisMessageP1 c8Device [("c1", JSValue.str "#ab")] =
      Except.error "Invalid hex color string" :=
  c8_amended c8Device "c1" "#ab" [] c8Feature (by with_unfolding_all rfl)
    rfl (by with_unfolding_all decide) (by with_unfolding_all decide)
    (by with_unfolding_all decide) (by with_unfolding_all decide)

/-- A part_001-style device mixing two pin-addressed pwm features and a
color feature. -/
def c7P1Device : Device :=
  { _id := "devP1",
    features :=
      [{ _id := "a", name := "Pin 1", category := "action",
         types := ["pwm", "pin:1"] },
       { _id := "b", name := "Color", category := "action",
         types := ["color", "neopixel"] },
       { _id := "c", name := "Pin 2", category := "action",
         types := ["pwm", "pin:2"] }] }

set_option maxRecDepth 4000 in
/-- C7: in part_001's outbound handler the per-feature skip fails — the
invalid color value `"abcd"` (neither boolean-like nor parsing to a number)
among two valid pwm values is not skipped per-feature: `hexToRgb` throws,
the handler aborts with the exception, and the command for the valid sibling
after it is suppressed, although that sibling alone would publish. -/
theorem c7_counterexample :
    isBoolLike (JSValue.str "abcd") = false ∧
      jsParseInt (JSValue.str "abcd") = none ∧
      handleRedisMessageP1 c7P1Device
          [("a", JSValue.str "100"), ("b", JSValue.str "abcd"),
            ("c", JSValue.str "40")] =
        Except.error "Invalid hex color string" ∧
      handleRedisMessageP1 c7P1Device [("c", JSValue.str "40")] =
        Except.ok [Intent.publishMessage "/device/devP1/pwm/2"
          (Payload.pwm 100 500)] := by
  refine ⟨?_, ?_, ?_, ?_⟩ <;> with_unfolding_all decide

/-- C7 (amended): in the esp-pwm outbound handler an entry whose value is
neither boolean-like nor parses to a number is skipped without publishing and
the rest of the batch translates exactly as if that entry were absent; in
part_001's outbound handler the same holds only for entries resolving to
`pwm`-typed features — color features route such values through `hexToRgb`,
whose exception aborts the whole batch (see the C8 development). -/
theorem c7_batch_partial_failure (device : Device) (l1 l2 : List (String × JSValue))
    (id : String) (v : JSValue) (deviceP1 : Device) (idP1 : String) (fP1 : Feature)
    (rest : List (String × JSValue))
    (h1 : isBoolLike v = false) (h2 : jsParseInt v = none)
    (h3 : getFeatureByTypeOrNameOrId deviceP1.features idP1 = some fP1)
    (h4 : fP1.types.contains "pwm" = true) :
    (handleRedisEntry device (id, v) = [] ∧
      handleRedisMessage device (l1 ++ (id, v) :: l2) =
        handleRedisMessage device l1 ++ handleRedisMessage device l2) ∧
      (handleRedisEntryP1 deviceP1 (idP1, v) = Except.ok [] ∧
        handleRedisMessageP1 deviceP1 ((idP1, v) :: rest) =
          handleRedisMessageP1 deviceP1 rest) := by
  have he : handleRedisEntry device (id, v) = [] := by
    unfold handleRedisEntry
    cases hf : getFeatureByTypeOrNameOrId device.features id with
    | none => simp [hf]
    | some f =>
      simp only [hf]
      cases hh : (extractNumberFromArray f.types).head? with
      | none => simp [hh]
      | some n =>
        simp only [hh]
        by_cases hn : (n == 0) = true
        · simp [hn]
        · simp [bool_not_true_eq_false _ hn, h1, h2]
  have hsplit : handleRedisMessage device (l1 ++ (id, v) :: l2) =
      handleRedisMessage device l1 ++ handleRedisMessage device l2 := by
    induction l1 with
    | nil => simp [handleRedisMessage, he]
    | cons e es ih => simp [handleRedisMessage, ih]
  have h4m : "pwm" ∈ fP1.types := by simpa using h4
  have heP1 : handleRedisEntryP1 deviceP1 (idP1, v) = Except.ok [] := by
    unfold handleRedisEntryP1
    rw [h3]
    by_cases hc : fP1.category = "action"
    · cases hp : (findFirst (fun t => t.startsWith "pin:") fP1.types).map
          (fun t => t.drop 4) with
      | none => simp [hc, h4m, hp]
      | some pin =>
        by_cases hpe : pin = ""
        · simp [hc, h4m, hp, hpe]
        · simp [hc, h4m, hp, hpe, h1, h2]
    · simp [hc]
  have hmP1 : handleRedisMessageP1 deviceP1 ((idP1, v) :: rest) =
      handleRedisMessageP1 deviceP1 rest := by
    have hcons : handleRedisMessageP1 deviceP1 ((idP1, v) :: rest) =
        match handleRedisEntryP1 deviceP1 (idP1, v) with
        | .error err => .error err
        | .ok cmds =>
          match handleRedisMessageP1 deviceP1 rest with
          | .error err => .error err
          | .ok more => .ok (cmds ++ more) := rfl
    rw [hcons, heP1]
    cases hr : handleRedisMessageP1 deviceP1 rest with
    | error e => rfl
    | ok more => simp
  exact ⟨⟨he, hsplit⟩, heP1, hmP1⟩

/-- Closed instance of `c7_batch_partial_failure`: one invalid value among
three entries still lets both valid siblings publish in the esp-pwm handler,
and the same value on a pwm feature of the part_001 device is skipped with
the rest of its batch intact. -/
theorem c7_batch_partial_failure_witness :
    ((handleRedisEntry c7Device ("b", JSValue.str "abc") = [] ∧
      handleRedisMessage c7Device
          ([("a", JSValue.str "100")] ++
            ("b", JSValue.str "abc") :: [("c", JSValue.str "40")]) =
        handleRedisMessage c7Device [("a", JSValue.str "100")] ++
          handleRedisMessage c7Device [("c", JSValue.str "40")]) ∧
      (handleRedisEntryP1 c7P1Device ("a", JSValue.str "abc") = Except.ok [] ∧
        handleRedisMessageP1 c7P1Device
            [("a", JSValue.str "abc"), ("c", JSValue.str "40")] =
          handleRedisMessageP1 c7P1Device [("c", JSValue.str "40")])) ∧
      (handleRedisMessage c7Device [("a", JSValue.str "100")]).length = 1 ∧
      (handleRedisMessage c7Device [("c", JSValue.str "40")]).length = 1 :=
  ⟨c7_batch_partial_failure c7Device [("a", JSValue.str "100")]
      [("c", JSValue.str "40")] "b" (JSValue.str "abc") c7P1Device "a"
      { _id := "a", name := "Pin 1", category := "action",
        types := ["pwm", "pin:1"] }
      [("c", JSValue.str "40")]
      (by with_unfolding_all decide) (by with_unfolding_all decide)
      (by with_unfolding_all rfl) (by with_unfolding_all decide),
    by with_unfolding_all decide, by with_unfolding_all decide⟩

-- --------------------------------------------------------------------------
-- FritzBox driver (part_004): bounded re-authentication (getFritzBoxSID)
-- --------------------------------------------------------------------------

/-- A JS number variable that may be `undefined` (declared, never assigned),
`NaN`, or a finite number. -/
inductive JSNum where
  | undef
  | nan
  | num (q : ℚ)
deriving DecidableEq, Repr

/-- `x++` stores `ToNumber(x) + 1`: `undefined` and `NaN` both become NaN. -/
def JSNum.incr : JSNum → JSNum
  | .undef => .nan
  | .nan => .nan
  | .num q => .num (q + 1)

/-- `x >= 20`: false for `undefined` and `NaN` operands. -/
def JSNum.ge20 : JSNum → Bool
  | .num q => decide (q ≥ 20)
  | _ => false

/-- Holds a finite number. -/
def JSNum.isNumeric : JSNum → Bool
  | .num _ => true
  | _ => false

/-- The login-attempt state of the FritzBox worker
(`let lastLoginTry: number; let loginTryCount: number;`). -/
structure FritzState where
  lastLoginTry : Option ℚ
  loginTryCount : JSNum
deriving DecidableEq, Repr

/-- Worker start: both variables declared but never initialised. -/
def initFritzState : FritzState :=
  { lastLoginTry := none, loginTryCount := .undef }

/-- Observable outcome of one `getFritzBoxSID` invocation. -/
inductive LoginOutcome where
  | skippedCooldown
  | terminated
  | attempted
deriving DecidableEq, Repr

/-- `lastLoginTry && currentTime - lastLoginTry < maxLoginInterval`: the
30-second cooldown guard (a stored time of 0 would be falsy). -/
def cooldownActive (lastTry : Option ℚ) (currentTime : ℚ) : Bool :=
  match lastTry with
  | some t0 => decide (t0 ≠ 0) && decide (currentTime - t0 < 30000)
  | none => false

/-- The control skeleton of `getFritzBoxSID`: return false inside the 30s
cooldown window, call `process.exit()` when `loginTryCount >= 20`, otherwise
record the attempt time, increment the counter and perform the login
exchange. -/
def getFritzBoxSIDStep (st : FritzState) (currentTime : ℚ) :
    FritzState × LoginOutcome :=
  if cooldownActive st.lastLoginTry currentTime then (st, .skippedCooldown)
  else if st.loginTryCount.ge20 then (st, .terminated)
  else ({ lastLoginTry := some currentTime,
          loginTryCount := st.loginTryCount.incr }, .attempted)

/-- Runs a sequence of `getFritzBoxSID` invocations at the given clock
readings, collecting the outcomes. -/
def runLogins (st : FritzState) : List ℚ → FritzState × List LoginOutcome
  | [] => (st, [])
  | t :: ts =>
    let step := getFritzBoxSIDStep st t
    let more := runLogins step.1 ts
    (more.1, step.2 :: more.2)

/-- Some invocation hit the terminate branch. -/
def anyTerminated (l : List LoginOutcome) : Bool :=
  l.any (fun o => o == LoginOutcome.terminated)

theorem c9_aux (ts : List ℚ) (st : FritzState)
    (h : st.loginTryCount.isNumeric = false) :
    anyTerminated (runLogins st ts).2 = false := by
  induction ts generalizing st with
  | nil => simp [runLogins, anyTerminated]
  | cons t rest ih =>
    have hge : st.loginTryCount.ge20 = false := by
      cases hc : st.loginTryCount with
      | undef => rfl
      | nan => rfl
      | num q => rw [hc] at h; simp [JSNum.isNumeric] at h
    have hinc : (st.loginTryCount.incr).isNumeric = false := by
      cases hc : st.loginTryCount with
      | undef => rfl
      | nan => rfl
      | num q => rw [hc] at h; simp [JSNum.isNumeric] at h
    by_cases hr : cooldownActive st.lastLoginTry t = true
    · simp [runLogins, anyTerminated, getFritzBoxSIDStep, hr] at ih ⊢
      exact ih st h
    · have hr2 : cooldownActive st.lastLoginTry t = false :=
        bool_not_true_eq_false _ hr
      simp [runLogins, anyTerminated, getFritzBoxSIDStep, hr2, hge] at ih ⊢
      exact ih _ hinc

/-- C9: the hard retry ceiling of `getFritzBoxSID` is dead code —
`loginTryCount` is declared without an initial value, so `loginTryCount++`
stores NaN forever and `loginTryCount >= 20` never holds: no sequence of
invocations, of any length and spacing, ever reaches the terminate branch. -/
theorem c9_code_bug (ts : List ℚ) :
    anyTerminated (runLogins initFritzState ts).2 = false :=
  c9_aux ts initFritzState rfl

-- --------------------------------------------------------------------------
-- zigbee2mqtt driver (part_000): outbound redis path with early return
-- --------------------------------------------------------------------------

/-- Loose JS inequality `cached != (value ? true : false)` between an
optional cached value and a boolean (`!=` coerces both sides to numbers for
mixed types; `undefined != bool` is true). -/
def jsLooseNeBool (o : Option JSValue) (b : Bool) : Bool :=
  match o with
  | none => true
  | some (.bool b2) => !(b2 == b)
  | some (.num q) => !(decide (q = (if b then 1 else 0)))
  | some (.str s) =>
    match jsStrToNumber s with
    | some q => !(decide (q = (if b then 1 else 0)))
    | none => true

/-- The command translation for one processed entry of part_000's
`handleRedisMessage` (run after the cache write), switching on the
device-class key `device.conf.type`. -/
def zigbeeCmds (device : Device) (cache : List (String × JSValue))
    (id : String) (value : JSValue) : List Intent :=
  match getFeatureByTypeOrNameOrId device.features id with
  | none => []
  | some f =>
    if f.category ≠ "action" then []
    else
      match device.conf.type with
      | none => []
      | some ty =>
        if ty == "" then []
        else if ty == "E2204" then
          if f.types.contains "switch" then
            [Intent.publishMessage
              ("zigbee2mqtt/" ++ device.conf.friendly_name ++ "/set")
              (Payload.state value.truthy none)]
          else []
        else if ty == "LED1835C6" then
          if f.types.contains "state" then
            [Intent.publishMessage
              ("zigbee2mqtt/" ++ device.conf.friendly_name ++ "/set")
              (Payload.state value.truthy
                (some (if device.conf.state_skip_transition then 0
                  else device.conf.transition.getD 0)))]
          else if f.types.contains "brightness" then
            let stateId := (getFeatureByTypeOrNameOrId device.features
              "state").map (fun g => g._id)
            [Intent.publishMessage
              ("zigbee2mqtt/" ++ device.conf.friendly_name ++ "/set")
              (Payload.brightness value (device.conf.transition.getD 0))] ++
              (match stateId with
                | some sid =>
                  if sid ≠ "" && jsLooseNeBool (mapGet cache sid) value.truthy then
                    [Intent.setData false none [(sid, JSValue.bool value.truthy)]]
                  else []
                | none => [])
          else if f.types.contains "color_temp" then
            [Intent.publishMessage
              ("zigbee2mqtt/" ++ device.conf.friendly_name ++ "/set")
              (Payload.colorTemp
                ((jsToNumber value).map (fun q => q / 255 * (454 - 250) + 250))
                (device.conf.transition.getD 0))]
          else []
        else []

/-- `oldValue != undefined && oldValue === value`: the suppression test at
the top of part_000's loop body. -/
def unchangedInCache (cache : List (String × JSValue)) (id : String)
    (v : JSValue) : Bool :=
  match mapGet cache id with
  | some old => decide (old = v)
  | none => false

/-- Part_000's `handleRedisMessage`: walks the batch entries in order; an
entry whose incoming value is strictly equal to a defined cache entry makes
the whole handler `return` (dropping every remaining entry); otherwise the
value is cached and translated, threading the cache. -/
def handleRedisMessageZ (device : Device) (cache : List (String × JSValue)) :
    List (String × JSValue) → List (String × JSValue) × List Intent
  | [] => (cache, [])
  | (id, v) :: rest =>
    if unchangedInCache cache id v then (cache, [])
    else
      let cache1 := mapSet cache id v
      let cmds := zigbeeCmds device cache1 id v
      let more := handleRedisMessageZ device cache1 rest
      (more.1, cmds ++ more.2)

/-- C10: when an entry carries a value strictly equal to its defined cache
entry, the handler returns immediately: no intent is emitted, the cache is
unchanged, and no subsequent entry of the batch is processed (the result
does not depend on `rest`). -/
theorem c10_early_return (device : Device) (cache : List (String × JSValue))
    (id : String) (v : JSValue) (rest : List (String × JSValue))
    (h : mapGet cache id = some v) :
    handleRedisMessageZ device cache ((id, v) :: rest) = (cache, []) := by
  unfold handleRedisMessageZ
  simp [unchangedInCache, h]

/-- An inited E2204 smart plug with two action features. -/
def c10Device : Device :=
  { _id := "z1",
    conf := { type := some "E2204", friendly_name := "plug" },
    features :=
      [{ _id := "s1", name := "Switch", category := "action",
         types := ["switch", "boolean"] },
       { _id := "s2", name := "Switch 2", category := "action",
         types := ["switch", "boolean"] }] }

/-- Closed instance of `c10_early_return`: the unchanged first entry aborts
the batch, although the second entry alone would publish a command. -/
theorem c10_early_return_witness :
    handleRedisMessageZ c10Device [("s1", JSValue.bool true)]
        [("s1", JSValue.bool true), ("s2", JSValue.bool true)] =
      ([("s1", JSValue.bool true)], []) ∧
      (handleRedisMessageZ c10Device [("s1", JSValue.bool true)]
        [("s2", JSValue.bool true)]).2.length = 1 :=
  ⟨c10_early_return c10Device [("s1", JSValue.bool true)] "s1"
      (JSValue.bool true) [("s2", JSValue.bool true)] (by with_unfolding_all rfl),
    by with_unfolding_all decide⟩
